import Mathlib

/-!
Shallow embedding of the ai_crawler repository (src/crawler.py, src/parser.py,
src/utils.py) and proofs about it.

Modelling conventions:
* Python `str` is Lean `String`; machine-independent string primitives
  (`strip`, `rstrip('/')`, `replace`, `isdigit`, `int(...)`) are re-implemented
  below with Python's semantics (ASCII whitespace and digits; Python's
  underscore digit-grouping for `int` is not modelled, it never occurs here).
* Parsed markup (the BeautifulSoup document) is the inductive tree `Node`;
  `find`/`find_all` search strict descendants in document order, exactly as
  BeautifulSoup does, and `class_=` filters match when the element carries the
  class among its class list.
* Network fetches are modelled by an oracle `Nat → FetchOutcome` giving the
  outcome of each attempt (HTTP 200 body, non-200 status, or a raised
  exception); time, logging and the debug-file side channel are not modelled.
* `datetime.now()` timestamps are threaded as an explicit `now : String`
  argument.
-/

/-! ## Python string primitives -/

/-- Python ASCII whitespace, as recognised by `str.strip()`. -/
def pyIsSpaceChar (c : Char) : Bool :=
  c = ' ' || c = '\t' || c = '\n' || c = '\r' || c = '\x0b' || c = '\x0c'

/-- Python `s.strip()`: drop whitespace from both ends. -/
def pyStrip (s : String) : String :=
  ⟨((s.data.dropWhile pyIsSpaceChar).reverse.dropWhile pyIsSpaceChar).reverse⟩

/-- Python `s.rstrip('/')`: drop trailing slashes. -/
def pyRstripSlash (s : String) : String :=
  ⟨(s.data.reverse.dropWhile (· == '/')).reverse⟩

/-- Worker for `pyReplace`: left-to-right non-overlapping replacement; `skip`
counts characters of a just-matched pattern occurrence still to be consumed. -/
def replaceCharsAux (pat rep : List Char) : Nat → List Char → List Char
  | _, [] => []
  | 0, c :: cs =>
    if pat.isPrefixOf (c :: cs) then rep ++ replaceCharsAux pat rep (pat.length - 1) cs
    else c :: replaceCharsAux pat rep 0 cs
  | skip + 1, _ :: cs => replaceCharsAux pat rep skip cs

/-- Python `s.replace(pat, rep)` for non-empty `pat` (all uses here are). -/
def pyReplace (s pat rep : String) : String :=
  if pat.data = [] then s else ⟨replaceCharsAux pat.data rep.data 0 s.data⟩

/-- Value of a list of decimal digit characters. -/
def digitsToNat (l : List Char) : Nat :=
  l.foldl (fun n c => n * 10 + (c.toNat - '0'.toNat)) 0

/-- Python `s.isdigit()`: non-empty and all digits. -/
def pyIsDigit (s : String) : Bool :=
  !s.data.isEmpty && s.data.all Char.isDigit

/-- Python `int(s)`: strip whitespace, optional sign, decimal digits;
`none` models a raised `ValueError`. -/
def pyInt (s : String) : Option Int :=
  match (pyStrip s).data with
  | [] => none
  | '-' :: rest =>
    if !rest.isEmpty && rest.all Char.isDigit then some (-(digitsToNat rest : Int)) else none
  | '+' :: rest =>
    if !rest.isEmpty && rest.all Char.isDigit then some ((digitsToNat rest : Int)) else none
  | l => if l.all Char.isDigit then some ((digitsToNat l : Int)) else none

/-! ## utils.py -/

/-- Embeds `utils.clean_text`: `if not text: return ""` then
`text.strip().replace('\n',' ').replace('\r','').replace('\t',' ')`. -/
def clean_text (text : String) : String :=
  if text = "" then ""
  else pyReplace (pyReplace (pyReplace (pyStrip text) "\n" " ") "\r" "") "\t" " "

/-- An item record (`utils.create_tool_item` plus the three keys
`parser._parse_tool_card` adds with `dict.update`). -/
structure Tool where
  name : String
  description : String
  url : String
  category : String
  crawl_time : String
  views : String
  likes : String
  icon_url : String
deriving DecidableEq, Repr

/-- Embeds `utils.create_tool_item` (the `views`/`likes`/`icon_url` keys are absent in
the source dict until `_parse_tool_card` updates them; they are initialised
here to the values the sole caller would otherwise leave, and that caller
always overwrites them). `now` stands for `format_timestamp()`. -/
def create_tool_item (name description url category now : String) : Tool :=
  ⟨clean_text name, clean_text description, pyStrip url, clean_text category, now, "0", "0", ""⟩

/-- Embeds `utils.get_retry_delay`: `min(base_delay * 2 ** attempt, 60)`.
`base_delay` defaults to `1.0` in the source; for the natural base delays used
by this program the float arithmetic is exact, so `Nat` is faithful. -/
def get_retry_delay (attempt : Nat) (base_delay : Nat) : Nat :=
  min (base_delay * 2 ^ attempt) 60

/-! ## Parsed-markup model (BeautifulSoup document tree) -/

/-- A parsed markup node: an element with tag, class list, other attributes and
children, or a text node. The document root passed to the parser functions is
the soup object itself. -/
inductive Node where
  | elem (tag : String) (classes : List String) (attrs : List (String × String)) (children : List Node)
  | text (s : String)

mutual
/-- BeautifulSoup `find_all(pred)` on a node: all strict descendants matching,
in document order (an element precedes its own descendants). -/
def findAll (p : Node → Bool) : Node → List Node
  | .elem _ _ _ children => findAllList p children
  | .text _ => []

def findAllList (p : Node → Bool) : List Node → List Node
  | [] => []
  | c :: cs => (if p c then [c] else []) ++ findAll p c ++ findAllList p cs
end

/-- BeautifulSoup `find(pred)`: first matching strict descendant. -/
def findNode (p : Node → Bool) (n : Node) : Option Node :=
  (findAll p n).head?

/-- BeautifulSoup `find(pred, recursive=False)`: first matching direct child. -/
def findDirectChild (p : Node → Bool) (n : Node) : Option Node :=
  match n with
  | .elem _ _ _ children => children.find? p
  | .text _ => none

mutual
/-- BeautifulSoup `get_text()`: concatenation of all descendant text. -/
def getText : Node → String
  | .text s => s
  | .elem _ _ _ children => getTextList children

def getTextList : List Node → String
  | [] => ""
  | c :: cs => getText c ++ getTextList cs
end

/-- Tag `get(key, default)` for a plain attribute. -/
def getAttr (n : Node) (key dflt : String) : String :=
  match n with
  | .elem _ _ attrs _ =>
    match attrs.lookup key with
    | some v => v
    | none => dflt
  | .text _ => dflt

/-- Membership test `cls in tag.get('class', [])`. -/
def hasClass (cls : String) (n : Node) : Bool :=
  match n with
  | .elem _ classes _ _ => classes.contains cls
  | .text _ => false

/-- Matcher for `find(tag, class_=cls)`. -/
def isTagClass (tag cls : String) (n : Node) : Bool :=
  match n with
  | .elem t classes _ _ => t = tag && classes.contains cls
  | .text _ => false

/-- Matcher for `find(tag)` with no class filter. -/
def isTag (tag : String) (n : Node) : Bool :=
  match n with
  | .elem t _ _ _ => t = tag
  | .text _ => false

/-! ## parser.py -/

/-- The `for span in spans` loop of `_parse_tool_card` collecting
`views`/`likes` from marker spans. -/
def scanSpans : List Node → String × String → String × String
  | [], vl => vl
  | span :: rest, (views, likes) =>
    if hasClass "down" span then
      scanSpans rest (pyStrip (pyReplace (getText span) "down" ""), likes)
    else if hasClass "home-like" span then
      scanSpans rest (views, pyStrip (getText span))
    else
      scanSpans rest (views, likes)

/-- Embeds `AIToolParser._parse_tool_card`: parse one card element; `none` models the
`return None` paths (missing card body / app content / title anchor). The
`try/except` wrapper has nothing to catch in this total model. -/
def parse_tool_card (now : String) (card_element : Node) : Option Tool :=
  match findNode (isTagClass "div" "card-body") card_element with
  | none => none
  | some card_body =>
  match findNode (isTagClass "div" "app-content") card_body with
  | none => none
  | some app_content =>
  match findNode (isTag "a") app_content with
  | none => none
  | some title_element =>
    let name := pyStrip (getText title_element)
    let url := getAttr title_element "href" ""
    let description :=
      match findNode (isTagClass "div" "text-muted") app_content with
      | some d => pyStrip (getText d)
      | none => ""
    let category :=
      match findNode (isTagClass "div" "tga") app_content with
      | some tga_element =>
        match findNode (isTag "a") tga_element with
        | some category_link => pyStrip (getText category_link)
        | none => "未分类"
      | none => "未分类"
    let vl :=
      match findDirectChild (isTagClass "div" "text-muted") app_content with
      | some meta_info => scanSpans (findAll (isTag "span") meta_info) ("0", "0")
      | none => ("0", "0")
    let icon_url :=
      match findNode (isTagClass "a" "media-content") card_body with
      | some media_content =>
        pyStrip (pyReplace (pyReplace (getAttr media_content "data-bg" "") "url(" "") ")" "")
      | none => ""
    let tool_info := create_tool_item name description url category now
    some ⟨tool_info.name, tool_info.description, tool_info.url, tool_info.category,
          tool_info.crawl_time, clean_text vl.1, clean_text vl.2, icon_url⟩

/-- Embeds `AIToolParser.parse_tool_list`: all `div.card-app` cards, keeping the
successfully parsed ones in order (`if tool_info:` is truth of a dict that is
never empty, i.e. non-`None`). -/
def parse_tool_list (now : String) (soup : Node) : List Tool :=
  (findAll (isTagClass "div" "card-app") soup).filterMap (parse_tool_card now)

/-- Result of `AIToolParser.extract_pagination_info`. Both values are Python
`int`s; the source puts no positivity constraint on either. -/
structure PaginationInfo where
  current_page : Int
  total_pages : Int
deriving DecidableEq, Repr

/-- The list comprehension of `extract_pagination_info`: numeric page-link
texts of a pagination element, as integers. -/
def pageNumbersOf (pagination : Node) : List Int :=
  (findAll (isTagClass "a" "page-numbers") pagination).filterMap
    (fun link => if pyIsDigit (getText link) then some ((digitsToNat (getText link).data : Nat) : Int) else none)

/-- Embeds `AIToolParser.extract_pagination_info`. -/
def extract_pagination_info (soup : Node) : PaginationInfo :=
  match findNode (isTagClass "div" "pagination") soup with
  | none => ⟨1, 1⟩
  | some pagination =>
    let current_page : Int :=
      match findNode (isTagClass "span" "current") pagination with
      | some current =>
        match pyInt (getText current) with
        | some v => v
        | none => 1
      | none => 1
    let total_pages : Int :=
      match pageNumbersOf pagination with
      | [] => 1
      | x :: xs => xs.foldl max x
    ⟨current_page, total_pages⟩

/-- Embeds `AIToolParser.is_valid_page`: a `div.content` container and at least one
`div.card-app` card must be present. -/
def is_valid_page (soup : Node) : Bool :=
  match findNode (isTagClass "div" "content") soup with
  | none => false
  | some _ => !(findAll (isTagClass "div" "card-app") soup).isEmpty

/-! ## crawler.py -/

/-- Embeds `AICrawler.__init__`: the stored base URL is the argument with trailing
slashes removed (`base_url.rstrip('/')`). -/
def init_base_url (base_url : String) : String :=
  pyRstripSlash base_url

/-- URL construction of `AICrawler.crawl_page` (lines 116-120):
`f"{self.base_url}page/{page}"` for `page > 1`, else `self.base_url`,
where `self.base_url` is `init_base_url` of the configured base. -/
def crawl_page_url (base_url : String) (page : Nat) : String :=
  if page > 1 then init_base_url base_url ++ "page/" ++ toString page else init_base_url base_url

/-- Outcome of one HTTP attempt inside `AICrawler.fetch_page`: a 200 response
with a body, a non-200 status, or an exception raised by the request
machinery. -/
inductive FetchOutcome where
  | ok (body : String)
  | badStatus (code : Nat)
  | exc

/-- Embeds `AICrawler.fetch_page`, with attempt outcomes supplied by `oracle`
(argument: the `retry_count` of the attempt). Returns the body on a 200
response; on a non-200 status falls through to `return None`; on an exception
retries with `retry_count + 1` while `retry_count < max_retries`, else returns
`None`. -/
def fetch_page (max_retries : Nat) (oracle : Nat → FetchOutcome) (retry_count : Nat) : Option String :=
  match oracle retry_count with
  | .ok body => some body
  | .badStatus _ => none
  | .exc =>
    if retry_count < max_retries then fetch_page max_retries oracle (retry_count + 1)
    else none
termination_by max_retries - retry_count
decreasing_by omega

/-- Number of HTTP attempts `fetch_page` makes (same recursion structure). -/
def fetch_attempts (max_retries : Nat) (oracle : Nat → FetchOutcome) (retry_count : Nat) : Nat :=
  match oracle retry_count with
  | .ok _ => 1
  | .badStatus _ => 1
  | .exc =>
    if retry_count < max_retries then 1 + fetch_attempts max_retries oracle (retry_count + 1)
    else 1
termination_by max_retries - retry_count
decreasing_by omega

/-- Embeds `AICrawler.crawl_page` after the URL build and fetch: its effect on
`self.tools` and its Boolean result, as a function of the fetch result
(`fetched`, a parsed document on success) and the tools list before the call.
Mirrors: `if not html_content: return False`; `if not is_valid_page: return
False`; `if page_tools: self.tools.extend(page_tools); return True` else
`return False`. -/
def crawl_page (now : String) (fetched : Option Node) (tools : List Tool) : Bool × List Tool :=
  match fetched with
  | none => (false, tools)
  | some soup =>
    if is_valid_page soup then
      match parse_tool_list now soup with
      | [] => (false, tools)
      | t :: ts => (true, tools ++ t :: ts)
    else (false, tools)

/-! ## Concrete documents used as inputs in witnesses and counterexamples -/

/-- A pagination control whose page links read "1", "2", "next", "5". -/
def exC4pag : Node :=
  .elem "div" ["pagination"] []
    [.elem "a" ["page-numbers"] [] [.text "1"],
     .elem "a" ["page-numbers"] [] [.text "2"],
     .elem "a" ["page-numbers"] [] [.text "next"],
     .elem "a" ["page-numbers"] [] [.text "5"]]

/-- A document containing `exC4pag`. -/
def exC4 : Node := .elem "html" [] [] [exC4pag]

/-- A document with no pagination control. -/
def exNoPagination : Node := .elem "html" [] [] [.elem "div" ["content"] [] []]

/-- A document whose pagination has current-marker text "-2" and the single
page-link text "0". -/
def exC9A : Node :=
  .elem "html" [] []
    [.elem "div" ["pagination"] []
      [.elem "span" ["current"] [] [.text "-2"],
       .elem "a" ["page-numbers"] [] [.text "0"]]]

/-- A document whose pagination has current-marker text "5" and the single
page-link text "2". -/
def exC9B : Node :=
  .elem "html" [] []
    [.elem "div" ["pagination"] []
      [.elem "span" ["current"] [] [.text "5"],
       .elem "a" ["page-numbers"] [] [.text "2"]]]

/-- A pagination control with current-marker text "2" and page-link text "3". -/
def exC9Wpag : Node :=
  .elem "div" ["pagination"] []
    [.elem "span" ["current"] [] [.text "2"],
     .elem "a" ["page-numbers"] [] [.text "3"]]

/-- A document containing `exC9Wpag`. -/
def exC9W : Node := .elem "html" [] [] [exC9Wpag]

/-- A card whose title anchor has empty text and no `href` attribute. -/
def exEmptyAnchorCard : Node :=
  .elem "div" ["card-app"] []
    [.elem "div" ["card-body"] []
      [.elem "div" ["app-content"] []
        [.elem "a" [] [] []]]]

/-- A valid listing document whose only card is `exEmptyAnchorCard`. -/
def exEmptyAnchor : Node :=
  .elem "html" [] [] [.elem "div" ["content"] [] [], exEmptyAnchorCard]

/-- A structurally valid listing document (content area plus one card) whose
card lacks a card body, so no record can be extracted from it. -/
def exValidNoTools : Node :=
  .elem "html" [] []
    [.elem "div" ["content"] [] [],
     .elem "div" ["card-app"] [] []]

/-- A fully populated card: icon, title anchor, description and category. -/
def exFullCard : Node :=
  .elem "div" ["card-app"] []
    [.elem "div" ["card-body"] []
      [.elem "a" ["media-content"] [("data-bg", "url(https://i.png)")] [],
       .elem "div" ["app-content"] []
        [.elem "a" [] [("href", "https://tool.example/")] [.text "ToolA"],
         .elem "div" ["text-muted"] [] [.text "d1"],
         .elem "div" ["tga"] [] [.elem "a" [] [] [.text "Cat"]]]]]

/-- A valid listing document whose only card is `exFullCard`. -/
def exFullDoc : Node :=
  .elem "html" [] [] [.elem "div" ["content"] [] [], exFullCard]

/-- The record `exFullCard` parses to (with timestamp "t0"). -/
def exFullTool : Tool :=
  ⟨"ToolA", "d1", "https://tool.example/", "Cat", "t0", "0", "0", "https://i.png"⟩

/-- The record `exEmptyAnchorCard` parses to: empty name and empty url. -/
def exEmptyTool : Tool := ⟨"", "", "", "未分类", "t0", "0", "0", ""⟩

/-- A card-app element with no card body at all. -/
def exCardNoBody : Node := .elem "div" ["card-app"] [] []

/-- An app-content element with no anchor. -/
def exACNoAnchor : Node := .elem "div" ["app-content"] [] []

/-- A card body whose app-content has no anchor. -/
def exBodyNoAnchor : Node := .elem "div" ["card-body"] [] [exACNoAnchor]

/-- A card whose app-content has no title anchor. -/
def exCardNoAnchor : Node := .elem "div" ["card-app"] [] [exBodyNoAnchor]

/-- A listing document interleaving valid and malformed cards: valid, no-body,
valid (with empty anchor), no-anchor. -/
def exMixed : Node :=
  .elem "html" [] []
    [.elem "div" ["content"] [] [],
     exFullCard, exCardNoBody, exEmptyAnchorCard, exCardNoAnchor]

/-! ## Helper lemmas -/

/-- Filtering a list to the elements where `f` succeeds does not change its
`filterMap f`. -/
theorem filterMap_filter_isSome {α β : Type} (f : α → Option β) (l : List α) :
    (l.filter (fun a => (f a).isSome)).filterMap f = l.filterMap f := by
  induction l with
  | nil => rfl
  | cons a l ih =>
    cases h : f a with
    | none => simp [List.filter_cons, List.filterMap_cons, h, ih]
    | some b => simp [List.filter_cons, List.filterMap_cons, h, ih]

/-- The length of `filterMap f` is the number of elements where `f` succeeds. -/
theorem length_filterMap_eq_length_filter {α β : Type} (f : α → Option β) (l : List α) :
    (l.filterMap f).length = (l.filter (fun a => (f a).isSome)).length := by
  induction l with
  | nil => rfl
  | cons a l ih =>
    cases h : f a with
    | none => simp [List.filter_cons, List.filterMap_cons, h, ih]
    | some b => simp [List.filter_cons, List.filterMap_cons, h, ih]

/-- A left fold of `max` only grows its accumulator. -/
theorem le_foldl_max (xs : List Int) : ∀ x y : Int, x ≤ y → x ≤ xs.foldl max y := by
  induction xs with
  | nil => intro x y h; simpa using h
  | cons a l ih => intro x y h; exact ih x (max y a) (le_trans h (le_max_left y a))

/-- Behaviour of `fetch_page`/`fetch_attempts` when every attempt raises. -/
theorem fetch_page_exc_aux (m : Nat) (oracle : Nat → FetchOutcome)
    (hexc : ∀ i, oracle i = FetchOutcome.exc) :
    ∀ k r, m - r = k → fetch_page m oracle r = none ∧ fetch_attempts m oracle r = (m - r) + 1 := by
  intro k
  induction k with
  | zero =>
    intro r hr
    rw [fetch_page, fetch_attempts, hexc r]
    have hnot : ¬ r < m := by omega
    simp [hnot, hr]
  | succ n ih =>
    intro r hr
    rw [fetch_page, fetch_attempts, hexc r]
    have hlt : r < m := by omega
    obtain ⟨h1, h2⟩ := ih (r + 1) (by omega)
    simp only [hlt, if_true, h1, h2]
    constructor
    · trivial
    · omega

/-- Evaluation of `crawl_page` when the fetch failed. -/
theorem crawl_page_none (now : String) (tools : List Tool) :
    crawl_page now none tools = (false, tools) := rfl

/-- Evaluation of `crawl_page` on an invalid page. -/
theorem crawl_page_invalid (now : String) (soup : Node) (tools : List Tool)
    (hv : is_valid_page soup = false) :
    crawl_page now (some soup) tools = (false, tools) := by
  simp [crawl_page, hv]

/-- Evaluation of `crawl_page` on a valid page with no extractable records. -/
theorem crawl_page_no_records (now : String) (soup : Node) (tools : List Tool)
    (hv : is_valid_page soup = true) (hp : parse_tool_list now soup = []) :
    crawl_page now (some soup) tools = (false, tools) := by
  simp [crawl_page, hv, hp]

/-- Evaluation of `crawl_page` on a valid page with extractable records. -/
theorem crawl_page_records (now : String) (soup : Node) (tools : List Tool)
    (t : Tool) (ts : List Tool)
    (hv : is_valid_page soup = true) (hp : parse_tool_list now soup = t :: ts) :
    crawl_page now (some soup) tools = (true, tools ++ t :: ts) := by
  simp [crawl_page, hv, hp]

/-- Shape of `extract_pagination_info` when a pagination control is found. -/
theorem extract_pagination_info_some (soup pagination : Node)
    (h : findNode (isTagClass "div" "pagination") soup = some pagination) :
    extract_pagination_info soup =
      ⟨(match findNode (isTagClass "span" "current") pagination with
        | some current =>
          (match pyInt (getText current) with
           | some v => v
           | none => 1)
        | none => 1),
       (match pageNumbersOf pagination with
        | [] => 1
        | x :: xs => xs.foldl max x)⟩ := by
  simp [extract_pagination_info, h]

/-! ## Claims -/

/-- C1: the per-page URL built by `crawl_page` from base `https://x/y/` and
page 3. The source strips the base's trailing slash (`rstrip('/')`) and then
appends the bare literal `page/3` with no separator, producing
`https://x/ypage/3` rather than the `https://x/y/page/3` the spec states; for
page 1 it requests the slash-stripped base. -/
theorem c1_page_url :
    crawl_page_url "https://x/y/" 3 = "https://x/ypage/3"
    ∧ crawl_page_url "https://x/y/" 3 ≠ "https://x/y/page/3"
    ∧ crawl_page_url "https://x/y/" 1 = "https://x/y" := by
  decide

/-- C3 (amended): `fetch_page` returns null on a non-200 status immediately,
with a single attempt and no retry; only a raised exception triggers the
backoff retry with `retry_count + 1` while `retry_count < max_retries`; a
fetch whose every attempt raises makes exactly `max_retries + 1` attempts and
then returns null; in no case does the failure propagate to the caller. -/
theorem c3_fetch_failure (m : Nat) (oracle : Nat → FetchOutcome) :
    ((∀ i, oracle i = FetchOutcome.exc) →
      fetch_page m oracle 0 = none ∧ fetch_attempts m oracle 0 = m + 1)
    ∧ (∀ code, oracle 0 = FetchOutcome.badStatus code →
      fetch_page m oracle 0 = none ∧ fetch_attempts m oracle 0 = 1) := by
  constructor
  · intro hexc
    obtain ⟨h1, h2⟩ := fetch_page_exc_aux m oracle hexc (m - 0) 0 rfl
    exact ⟨h1, by simpa using h2⟩
  · intro code h
    rw [fetch_page, fetch_attempts, h]
    exact ⟨rfl, rfl⟩

/-- C3 witness: at `max_retries = 3`, an all-exception oracle gives 4 attempts
and null; an oracle answering 404 gives a single attempt and null. -/
theorem c3_fetch_failure_witness :
    (fetch_page 3 (fun _ => FetchOutcome.exc) 0 = none
      ∧ fetch_attempts 3 (fun _ => FetchOutcome.exc) 0 = 3 + 1)
    ∧ (fetch_page 3 (fun _ => FetchOutcome.badStatus 404) 0 = none
      ∧ fetch_attempts 3 (fun _ => FetchOutcome.badStatus 404) 0 = 1) :=
  ⟨(c3_fetch_failure 3 (fun _ => FetchOutcome.exc)).1 (fun _ => rfl),
   (c3_fetch_failure 3 (fun _ => FetchOutcome.badStatus 404)).2 404 rfl⟩

/-- C3 counterexample: with `max_retries = 3`, a fetch that fails on every
attempt with a non-200 status makes 1 attempt, not the `maxRetries + 1 = 4`
the claim requires of every all-attempts-failing fetch. -/
theorem c3_counterexample :
    fetch_attempts 3 (fun _ => FetchOutcome.badStatus 404) 0 = 1
    ∧ fetch_page 3 (fun _ => FetchOutcome.badStatus 404) 0 = none
    ∧ (1 : Nat) ≠ 3 + 1 := by
  refine ⟨?_, ?_, by decide⟩
  · rw [fetch_attempts]
  · rw [fetch_page]

/-- C6 (amended): `clean_text` is exactly Python
`s.strip()` followed by replacing `\n` with a space, removing `\r` and
replacing `\t` with a space, with no further trimming of internal spaces;
in particular `clean_text " a\nb\tc\r "` equals `"a b c"` (the trailing
`"\r "` is removed by the initial strip). -/
theorem c6_clean_text (s : String) :
    clean_text s = pyReplace (pyReplace (pyReplace (pyStrip s) "\n" " ") "\r" "") "\t" " "
    ∧ clean_text " a\nb\tc\r " = "a b c" := by
  constructor
  · by_cases h : s = ""
    · subst h; decide
    · simp [clean_text, h]
  · decide

/-- C6 counterexample: the claim's example value `"a b c "` (with trailing
space) is wrong; the strip runs first and removes the trailing `"\r "`, so
`clean_text " a\nb\tc\r "` is `"a b c"`. -/
theorem c6_counterexample :
    clean_text " a\nb\tc\r " = "a b c"
    ∧ clean_text " a\nb\tc\r " ≠ "a b c " := by
  decide

/-- C7: with base delay 1 second the retry backoff delay for attempt `n` is
`min(1 * 2 ^ n, 60)`, and the delays for attempts 0..6 are
1, 2, 4, 8, 16, 32, 60 (capped at 60, not 64). -/
theorem c7_retry_delay :
    (∀ attempt : Nat, get_retry_delay attempt 1 = min (2 ^ attempt) 60)
    ∧ (List.range 7).map (fun attempt => get_retry_delay attempt 1) = [1, 2, 4, 8, 16, 32, 60] := by
  refine ⟨fun attempt => by simp [get_retry_delay], by decide⟩

/-- C4: `extract_pagination_info` returns current page 1 and total pages 1
when no pagination control is present; otherwise its total-page count is the
maximum of the pagination control's page-link texts that parse as integers
(the `isdigit` comprehension), defaulting to 1 when none parse; on the control
whose page-link texts are "1", "2", "next", "5" the total is 5. -/
theorem c4_extract_pagination (soup : Node) :
    (findNode (isTagClass "div" "pagination") soup = none →
      extract_pagination_info soup = ⟨1, 1⟩)
    ∧ (∀ pagination, findNode (isTagClass "div" "pagination") soup = some pagination →
        (extract_pagination_info soup).total_pages =
          (match pageNumbersOf pagination with
           | [] => 1
           | x :: xs => xs.foldl max x))
    ∧ extract_pagination_info exC4 = ⟨1, 5⟩ := by
  refine ⟨fun h => by simp [extract_pagination_info, h], fun pagination h => ?_, by decide⟩
  rw [extract_pagination_info_some soup pagination h]

/-- C4 witness: the no-pagination document yields the defaults, and on `exC4`
the total-page count is the maximum of the numeric page links. -/
theorem c4_extract_pagination_witness :
    extract_pagination_info exNoPagination = ⟨1, 1⟩
    ∧ (extract_pagination_info exC4).total_pages =
        (match pageNumbersOf exC4pag with
         | [] => 1
         | x :: xs => xs.foldl max x) :=
  ⟨(c4_extract_pagination exNoPagination).1 rfl,
   (c4_extract_pagination exC4).2.1 exC4pag rfl⟩

/-- C9 (amended): both pagination fields default to 1; `current_page` is
positive whenever the current marker is absent or its text does not parse to a
non-positive integer, and `total_pages` is positive whenever every numeric
page-link value is positive (or there is none); the source enforces neither
positivity in general nor `total_pages ≥ current_page`. -/
theorem c9_pagination_bounds (soup : Node)
    (hcur : ∀ pagination, findNode (isTagClass "div" "pagination") soup = some pagination →
      ∀ current, findNode (isTagClass "span" "current") pagination = some current →
      1 ≤ (pyInt (getText current)).getD 1)
    (htot : ∀ pagination, findNode (isTagClass "div" "pagination") soup = some pagination →
      ∀ x ∈ pageNumbersOf pagination, (1 : Int) ≤ x) :
    1 ≤ (extract_pagination_info soup).current_page
    ∧ 1 ≤ (extract_pagination_info soup).total_pages := by
  cases hpag : findNode (isTagClass "div" "pagination") soup with
  | none => simp [extract_pagination_info, hpag]
  | some pagination =>
    rw [extract_pagination_info_some soup pagination hpag]
    constructor
    · cases hc : findNode (isTagClass "span" "current") pagination with
      | none => simp
      | some current =>
        have hval := hcur pagination hpag current hc
        cases hv : pyInt (getText current) with
        | none => simp [hv]
        | some v =>
          rw [hv] at hval
          simpa [hv] using hval
    · cases hn : pageNumbersOf pagination with
      | nil => simp
      | cons x xs =>
        have hx := htot pagination hpag x (by rw [hn]; exact List.mem_cons_self x xs)
        simpa using le_foldl_max xs 1 x hx

/-- C9 witness: on a document whose pagination has current-marker text "2" and
page-link text "3" the extracted fields are the positive 2 and 3. -/
theorem c9_pagination_bounds_witness :
    1 ≤ (extract_pagination_info exC9W).current_page
    ∧ 1 ≤ (extract_pagination_info exC9W).total_pages := by
  apply c9_pagination_bounds
  · intro pagination hpag current hc
    rw [show findNode (isTagClass "div" "pagination") exC9W = some exC9Wpag from rfl] at hpag
    injection hpag with hpg
    subst hpg
    rw [show findNode (isTagClass "span" "current") exC9Wpag
          = some (Node.elem "span" ["current"] [] [.text "2"]) from rfl] at hc
    injection hc with hcu
    subst hcu
    decide
  · intro pagination hpag x hx
    rw [show findNode (isTagClass "div" "pagination") exC9W = some exC9Wpag from rfl] at hpag
    injection hpag with hpg
    subst hpg
    rw [show pageNumbersOf exC9Wpag = [3] from by decide] at hx
    simp only [List.mem_singleton] at hx
    subst hx
    decide

/-- C9 counterexample: on `exC9A` (current "-2", page link "0") the extracted
current page is -2 and the total is 0, refuting both positivity claims; on
`exC9B` (current "5", page link "2") the total 2 is below the current page 5,
refuting `total_pages ≥ current_page`. -/
theorem c9_counterexample :
    ¬ (1 ≤ (extract_pagination_info exC9A).current_page
       ∧ 1 ≤ (extract_pagination_info exC9A).total_pages
       ∧ (extract_pagination_info exC9A).current_page
         ≤ (extract_pagination_info exC9A).total_pages)
    ∧ ¬ ((extract_pagination_info exC9B).current_page
         ≤ (extract_pagination_info exC9B).total_pages) := by
  decide

/-- C2 (amended): every record in the extractor's output comes from a card in
the page's card list on which `parse_tool_card` succeeded, and on such cards
the card-body / app-content / title-anchor chain was located; entries lacking
that chain are dropped silently. No non-emptiness of `name` or `url` is
enforced: a located anchor with empty text and no `href` still yields a
record. -/
theorem c2_record_provenance (now : String) (soup : Node) (t : Tool)
    (h : t ∈ parse_tool_list now soup) :
    ∃ card, card ∈ findAll (isTagClass "div" "card-app") soup
      ∧ parse_tool_card now card = some t
      ∧ ((findNode (isTagClass "div" "card-body") card).bind
          (fun card_body => (findNode (isTagClass "div" "app-content") card_body).bind
            (findNode (isTag "a")))).isSome = true := by
  unfold parse_tool_list at h
  obtain ⟨card, hmem, hparse⟩ := List.mem_filterMap.mp h
  refine ⟨card, hmem, hparse, ?_⟩
  unfold parse_tool_card at hparse
  cases h1 : findNode (isTagClass "div" "card-body") card with
  | none => rw [h1] at hparse; simp at hparse
  | some card_body =>
    rw [h1] at hparse
    cases h2 : findNode (isTagClass "div" "app-content") card_body with
    | none => simp [h2] at hparse
    | some app_content =>
      cases h3 : findNode (isTag "a") app_content with
      | none => simp [h2, h3] at hparse
      | some title_element => simp [h2, h3]

/-- C2 witness: the record extracted from the empty-anchor card is traceable to
that card, whose structural chain is present. -/
theorem c2_record_provenance_witness :
    ∃ card, card ∈ findAll (isTagClass "div" "card-app") exEmptyAnchor
      ∧ parse_tool_card "t0" card = some exEmptyTool
      ∧ ((findNode (isTagClass "div" "card-body") card).bind
          (fun card_body => (findNode (isTagClass "div" "app-content") card_body).bind
            (findNode (isTag "a")))).isSome = true :=
  c2_record_provenance "t0" exEmptyAnchor exEmptyTool (by decide)

/-- C2 counterexample: the page operation on `exEmptyAnchor` appends to the
aggregate collection a record whose `name` and `url` are both empty — the
extraction boundary does not drop it. -/
theorem c2_counterexample :
    crawl_page "t0" (some exEmptyAnchor) [] = (true, [exEmptyTool])
    ∧ exEmptyTool.name = "" ∧ exEmptyTool.url = "" := by
  decide

/-- C8: `parse_tool_list` returns exactly the records of the cards on which
`parse_tool_card` succeeds, in the order those cards appear in the markup
(so K valid entries interleaved with malformed ones yield exactly K records in
relative order), and a card whose card-body, app-content, or title anchor
cannot be located yields no record; the extraction is a total function, so a
malformed entry never aborts the page. -/
theorem c8_extract_list (now : String) (soup : Node) :
    parse_tool_list now soup =
      ((findAll (isTagClass "div" "card-app") soup).filter
        (fun card => (parse_tool_card now card).isSome)).filterMap (parse_tool_card now)
    ∧ (parse_tool_list now soup).length =
      ((findAll (isTagClass "div" "card-app") soup).filter
        (fun card => (parse_tool_card now card).isSome)).length
    ∧ (∀ card, findNode (isTagClass "div" "card-body") card = none →
        parse_tool_card now card = none)
    ∧ (∀ card card_body, findNode (isTagClass "div" "card-body") card = some card_body →
        findNode (isTagClass "div" "app-content") card_body = none →
        parse_tool_card now card = none)
    ∧ (∀ card card_body app_content,
        findNode (isTagClass "div" "card-body") card = some card_body →
        findNode (isTagClass "div" "app-content") card_body = some app_content →
        findNode (isTag "a") app_content = none →
        parse_tool_card now card = none) := by
  refine ⟨(filterMap_filter_isSome _ _).symm,
    length_filterMap_eq_length_filter _ _, ?_, ?_, ?_⟩
  · intro card h1
    simp [parse_tool_card, h1]
  · intro card card_body h1 h2
    simp [parse_tool_card, h1, h2]
  · intro card card_body app_content h1 h2 h3
    simp [parse_tool_card, h1, h2, h3]

/-- C8 witness: on the interleaved document `exMixed` the output length is the
number of parseable cards, and the no-body and no-anchor cards parse to
nothing. -/
theorem c8_extract_list_witness :
    (parse_tool_list "t0" exMixed).length =
      ((findAll (isTagClass "div" "card-app") exMixed).filter
        (fun card => (parse_tool_card "t0" card).isSome)).length
    ∧ parse_tool_card "t0" exCardNoBody = none
    ∧ parse_tool_card "t0" exCardNoAnchor = none :=
  ⟨(c8_extract_list "t0" exMixed).2.1,
   (c8_extract_list "t0" exMixed).2.2.1 exCardNoBody rfl,
   (c8_extract_list "t0" exMixed).2.2.2.2 exCardNoAnchor exBodyNoAnchor exACNoAnchor rfl rfl rfl⟩

/-- C5 (amended): the page operation returns false and appends nothing when
the fetch fails or the page is invalid; otherwise it extracts the page's
records and, when at least one record was extracted, appends them and returns
true — but when the extraction yields zero records it returns false and
appends nothing, rather than returning true. -/
theorem c5_page_operation (now : String) (fetched : Option Node) (tools : List Tool) :
    (fetched = none → crawl_page now fetched tools = (false, tools))
    ∧ (∀ soup, fetched = some soup → is_valid_page soup = false →
        crawl_page now fetched tools = (false, tools))
    ∧ (∀ soup, fetched = some soup → is_valid_page soup = true →
        parse_tool_list now soup ≠ [] →
        crawl_page now fetched tools = (true, tools ++ parse_tool_list now soup))
    ∧ (∀ soup, fetched = some soup → is_valid_page soup = true →
        parse_tool_list now soup = [] →
        crawl_page now fetched tools = (false, tools)) := by
  refine ⟨?_, ?_, ?_, ?_⟩
  · intro h; subst h; rfl
  · intro soup h hv; subst h; exact crawl_page_invalid now soup tools hv
  · intro soup h hv hne; subst h
    cases hp : parse_tool_list now soup with
    | nil => exact absurd hp hne
    | cons t ts => rw [crawl_page_records now soup tools t ts hv hp]
  · intro soup h hv hp; subst h; exact crawl_page_no_records now soup tools hv hp

/-- C5 witness: a failed fetch and a record-less valid page give false with
the collection untouched; the valid one-card page gives true and appends its
record. -/
theorem c5_page_operation_witness :
    crawl_page "t0" none [] = (false, [])
    ∧ crawl_page "t0" (some exFullDoc) [] = (true, [] ++ parse_tool_list "t0" exFullDoc)
    ∧ crawl_page "t0" (some exValidNoTools) [] = (false, []) :=
  ⟨(c5_page_operation "t0" none []).1 rfl,
   (c5_page_operation "t0" (some exFullDoc) []).2.2.1 exFullDoc rfl (by decide) (by decide),
   (c5_page_operation "t0" (some exValidNoTools) []).2.2.2 exValidNoTools rfl (by decide) (by decide)⟩

/-- C5 counterexample: on `exValidNoTools` the fetch succeeded and the page is
valid, yet the page operation returns false, refuting the claim that every
fetch-succeeded-and-valid page returns success. -/
theorem c5_counterexample :
    is_valid_page exValidNoTools = true
    ∧ crawl_page "t0" (some exValidNoTools) [] = (false, ([] : List Tool)) := by
  decide

/-- C10: when the page operation returns false the accumulated collection is
returned exactly unchanged (no partial append); when it returns true a
non-empty batch of records was appended; and a page whose fetch succeeds and
which passes validation but yields zero extracted records returns false (and
so is counted among the failed pages by the orchestrator's success count). -/
theorem c10_no_partial_append (now : String) (fetched : Option Node) (tools : List Tool) :
    ((crawl_page now fetched tools).1 = false → (crawl_page now fetched tools).2 = tools)
    ∧ ((crawl_page now fetched tools).1 = true →
        ∃ new, new ≠ [] ∧ (crawl_page now fetched tools).2 = tools ++ new)
    ∧ (∀ soup, fetched = some soup → is_valid_page soup = true →
        parse_tool_list now soup = [] → (crawl_page now fetched tools).1 = false) := by
  refine ⟨?_, ?_, ?_⟩
  · intro hfalse
    cases fetched with
    | none => rfl
    | some soup =>
      by_cases hv : is_valid_page soup
      · cases hp : parse_tool_list now soup with
        | nil => rw [crawl_page_no_records now soup tools hv hp]
        | cons t ts =>
          rw [crawl_page_records now soup tools t ts hv hp] at hfalse
          simp at hfalse
      · rw [crawl_page_invalid now soup tools (by simpa using hv)]
  · intro htrue
    cases fetched with
    | none => rw [crawl_page_none] at htrue; simp at htrue
    | some soup =>
      by_cases hv : is_valid_page soup
      · cases hp : parse_tool_list now soup with
        | nil =>
          rw [crawl_page_no_records now soup tools hv hp] at htrue
          simp at htrue
        | cons t ts =>
          refine ⟨t :: ts, List.cons_ne_nil t ts, ?_⟩
          rw [crawl_page_records now soup tools t ts hv hp]
      · rw [crawl_page_invalid now soup tools (by simpa using hv)] at htrue
        simp at htrue
  · intro soup h hv hp
    subst h
    rw [crawl_page_no_records now soup tools hv hp]

/-- C10 witness: a record-less valid page leaves the collection unchanged and
returns false; the one-card valid page appends a non-empty batch. -/
theorem c10_no_partial_append_witness :
    (crawl_page "t0" (some exValidNoTools) ([] : List Tool)).2 = []
    ∧ (∃ new, new ≠ []
        ∧ (crawl_page "t0" (some exFullDoc) [exEmptyTool]).2 = [exEmptyTool] ++ new)
    ∧ (crawl_page "t0" (some exValidNoTools) ([] : List Tool)).1 = false :=
  ⟨(c10_no_partial_append "t0" (some exValidNoTools) []).1 (by decide),
   (c10_no_partial_append "t0" (some exFullDoc) [exEmptyTool]).2.1 (by decide),
   (c10_no_partial_append "t0" (some exValidNoTools) []).2.2 exValidNoTools rfl
     (by decide) (by decide)⟩
